import Mathlib

/-!
Verification of the Tolerant Message Client (`agents1/python_a2a.py`).

The file shallowly embeds the client: JSON-like payloads become the
inductive `JValue` (Python dicts are association lists with distinct
keys), the HTTP transport becomes an explicit function from a URL and a
payload to either a response or a raised exception, and every fallible
Python operation returns `Except`.  The definitions follow the source
line by line; theorems about the frozen claims come after them.
-/

namespace A2A

/-- JSON-like values as decoded by the Python client (`r.json()` results,
request payloads, and the heterogeneous bridge responses).  Python dicts
are modelled as association lists whose keys are distinct; `jnull` is
Python `None`. -/
inductive JValue where
  | jstr (s : String)
  | jnum (n : Int)
  | jbool (b : Bool)
  | jnull
  | jobj (fields : List (String × JValue))
  | jarr (items : List JValue)

/-- `d.get(key)` on a Python dict: the value when the key is present,
`None` (here `none`) otherwise.  Keys are distinct, so first match. -/
def dictGet : List (String × JValue) → String → Option JValue
  | [], _ => none
  | (k, v) :: rest, key => if k = key then some v else dictGet rest key

/-- `d.setdefault(key, v)`: keep the dict unchanged when the key is
already present, otherwise insert `key ↦ v` (at the end, matching
Python's insertion order). -/
def setdefault (fs : List (String × JValue)) (k : String) (v : JValue) :
    List (String × JValue) :=
  if (dictGet fs k).isSome then fs else fs ++ [(k, v)]

/-- Python truthiness of a decoded JSON value (`bool(v)`). -/
def truthy : JValue → Bool
  | .jstr s => !s.isEmpty
  | .jnum n => n != 0
  | .jbool b => b
  | .jnull => false
  | .jobj fs => !fs.isEmpty
  | .jarr xs => !xs.isEmpty

/-- Truthiness of a `d.get(...)` result: `None` is falsy. -/
def optTruthy : Option JValue → Bool
  | none => false
  | some v => truthy v

/-- Python `a or b` on two `get` results: the first operand when it is
truthy, otherwise the second. -/
def pyOr (a b : Option JValue) : Option JValue :=
  if optTruthy a then a else b

/-- The whitespace characters removed by Python `str.strip()`. -/
def isPyWs (c : Char) : Bool :=
  c == ' ' || c == '\t' || c == '\n' || c == '\x0d' || c == '\x0b' || c == '\x0c'

/-- Truthiness of `s.strip()`: some character of `s` is not whitespace. -/
def stripTruthy (s : String) : Bool :=
  s.toList.any (fun c => !(isPyWs c))

mutual
/-- Python `repr` of a decoded JSON value, used by the source's f-strings
when it interpolates a whole payload into a fallback message. -/
def jRepr : JValue → String
  | JValue.jstr s => "\x27" ++ s ++ "\x27"
  | JValue.jnum n => toString n
  | JValue.jbool b => if b then "True" else "False"
  | JValue.jnull => "None"
  | JValue.jobj fs => "\x7b" ++ jReprFields fs ++ "\x7d"
  | JValue.jarr xs => "[" ++ jReprItems xs ++ "]"

/-- `repr` of a dict's entries, comma separated. -/
def jReprFields : List (String × JValue) → String
  | [] => ""
  | [(k, v)] => "\x27" ++ k ++ "\x27: " ++ jRepr v
  | (k, v) :: rest => "\x27" ++ k ++ "\x27: " ++ jRepr v ++ ", " ++ jReprFields rest

/-- `repr` of a list's items, comma separated. -/
def jReprItems : List JValue → String
  | [] => ""
  | [v] => jRepr v
  | v :: rest => jRepr v ++ ", " ++ jReprItems rest
end

/-- Python `str(v)`: strings print bare at top level, containers via `repr`. -/
def pyStr : JValue → String
  | JValue.jstr s => s
  | v => jRepr v

/-- `TextContent` of python_a2a.py. -/
structure TextContent where
  text : String
deriving DecidableEq

/-- `Message` of python_a2a.py (the outbound message). -/
structure Message where
  role : String
  content : TextContent
  conversation_id : Option String := none
  metadata : Option (List (String × JValue)) := none
  parent_message_id : Option String := none
  message_id : Option String := none

/-- `_A2AResponse` of python_a2a.py: the normalized reply.  The source is
untyped, so the conversation id is kept as the raw value that flowed into
it (strings injected via `JValue.jstr`). -/
structure A2AResponse where
  content : TextContent
  conversation_id : Option JValue

/-- The conversation-id resolution at the top of `_extract_text_and_conv`:
top level `conversation_id` when truthy, else `metadata["conversation_id"]`
when `metadata` is a dict, else the fallback from the outbound message.
Presence is tested with Python truthiness (`if not conv:`). -/
def convResolve (fs : List (String × JValue)) (fallbackConv : Option String) :
    Option JValue :=
  let conv0 := dictGet fs "conversation_id"
  let conv1 :=
    if optTruthy conv0 then conv0
    else
      match dictGet fs "metadata" with
      | some (JValue.jobj mfs) => dictGet mfs "conversation_id"
      | _ => conv0
  if optTruthy conv1 then conv1 else Option.map JValue.jstr fallbackConv

/-- Rule 1/2 of the normalizer: `content` is a dict with a string `text`
member, or `content` is itself a string. -/
def tryContent (fs : List (String × JValue)) : Option String :=
  match dictGet fs "content" with
  | some (JValue.jobj cfs) =>
    match dictGet cfs "text" with
    | some (JValue.jstr t) => some t
    | _ => none
  | some (JValue.jstr s) => some s
  | _ => none

/-- A top-level key holding a string value. -/
def tryKeyStr (fs : List (String × JValue)) (k : String) : Option String :=
  match dictGet fs k with
  | some (JValue.jstr v) => some v
  | _ => none

/-- Rule 3: top-level `response`, `text`, `message`, in that order. -/
def tryTop (fs : List (String × JValue)) : Option String :=
  tryKeyStr fs "response" <|> tryKeyStr fs "text" <|> tryKeyStr fs "message"

/-- Rule 4: `parts` is a non-empty list whose first element is a dict with
a string `text` member. -/
def tryParts (fs : List (String × JValue)) : Option String :=
  match dictGet fs "parts" with
  | some (JValue.jarr (first :: _)) =>
    match first with
    | JValue.jobj pfs =>
      match dictGet pfs "text" with
      | some (JValue.jstr t) => some t
      | _ => none
    | _ => none
  | _ => none

/-- One error-shaped key (`error`, `detail`, `description`): a string value
with truthy strip, or a dict whose `message or text` member is such a
string; the extracted text gets the `[error] ` marker. -/
def tryErrKey (fs : List (String × JValue)) (k : String) : Option String :=
  match dictGet fs k with
  | some (JValue.jstr v) => if stripTruthy v then some ("[error] " ++ v) else none
  | some (JValue.jobj vfs) =>
    match pyOr (dictGet vfs "message") (dictGet vfs "text") with
    | some (JValue.jstr msg) => if stripTruthy msg then some ("[error] " ++ msg) else none
    | _ => none
  | _ => none

/-- Rule 5: the `error`, `detail`, `description` keys in order. -/
def tryErrFields (fs : List (String × JValue)) : Option String :=
  tryErrKey fs "error" <|> tryErrKey fs "detail" <|> tryErrKey fs "description"

/-- Rule 6: `errors` is a non-empty list; its first element is a dict with
`message or detail or title`, or a string with truthy strip. -/
def tryErrors (fs : List (String × JValue)) : Option String :=
  match dictGet fs "errors" with
  | some (JValue.jarr (first :: _)) =>
    match first with
    | JValue.jobj efs =>
      match pyOr (pyOr (dictGet efs "message") (dictGet efs "detail"))
          (dictGet efs "title") with
      | some (JValue.jstr msg) => if stripTruthy msg then some ("[error] " ++ msg) else none
      | _ => none
    | JValue.jstr s => if stripTruthy s then some ("[error] " ++ s) else none
    | _ => none
  | _ => none

/-- Rule 7 of the source (`isinstance(data, str)`): the whole payload is a
bare string.  When the payload is a dict this never fires; see
`extractTextAndConv` for why a non-dict payload never reaches it either. -/
def ruleString : JValue → Option String
  | JValue.jstr s => some s
  | _ => none

/-- The final fallback text: `(A2A) HTTP <status>, body: <data>` when the
payload carries a truthy `_http_status`, else `(A2A) unexpected response:
<data>`. -/
def fallbackText (fs : List (String × JValue)) (data : JValue) : String :=
  let status := dictGet fs "_http_status"
  if optTruthy status then
    match status with
    | some st => "(A2A) HTTP " ++ pyStr st ++ ", body: " ++ pyStr data
    | none => "(A2A) unexpected response: " ++ pyStr data
  else "(A2A) unexpected response: " ++ pyStr data

/-- The ordered text-extraction rules of `_extract_text_and_conv`.  The
source returns from the first matching `if`; that is exactly first-success
over these ordered extractors. -/
def extractText (fs : List (String × JValue)) (data : JValue) : Option String :=
  tryContent fs <|> tryTop fs <|> tryParts fs <|> tryErrFields fs <|>
    tryErrors fs <|> ruleString data

/-- The body of `_extract_text_and_conv` once the payload is known to be a
dict: resolve the conversation id, then take the first matching extraction
rule, falling back to the status/echo text. -/
def extractFromDict (fs : List (String × JValue)) (data : JValue)
    (fallbackConv : Option String) : A2AResponse :=
  let conv := convResolve fs fallbackConv
  match extractText fs data with
  | some t => ⟨⟨t⟩, conv⟩
  | none => ⟨⟨fallbackText fs data⟩, conv⟩

/-- The Python runtime type name of a value, as it appears in
`AttributeError` messages. -/
def pyTypeName : JValue → String
  | .jstr _ => "str"
  | .jnum _ => "int"
  | .jbool _ => "bool"
  | .jnull => "NoneType"
  | .jobj _ => "dict"
  | .jarr _ => "list"

/-- The message of the `AttributeError` raised by `x.get(...)` when `x` is
not a dict. -/
def pyAttrMsg (tyName : String) : String :=
  "\x27" ++ tyName ++ "\x27 object has no attribute \x27get\x27"

/-- `_extract_text_and_conv(data, fallback_conv)`.  Its first statement is
`data.get("conversation_id")`, so a payload that is not a dict raises
`AttributeError` immediately — before any extraction rule, including the
bare-string branch `ruleString`, can run.  The error carries the Python
message text. -/
def extractTextAndConv (data : JValue) (fallbackConv : Option String) :
    Except String A2AResponse :=
  match data with
  | JValue.jobj fs => Except.ok (extractFromDict fs (JValue.jobj fs) fallbackConv)
  | _ => Except.error (pyAttrMsg (pyTypeName data))

/-- The exceptions the transport (and the normalizer) can raise:
`requests.Timeout`, or any other exception with its class name and
message. -/
inductive PyExn where
  | timeout (msg : String)
  | other (name : String) (msg : String)
deriving DecidableEq

/-- An HTTP response as the client reads it: `r.status_code`,
`r.headers.get("Content-Type")`, `r.text`, and the outcome of `r.json()`
(which may itself raise). -/
structure HttpResponse where
  status_code : Int
  contentType : Option String
  text : String
  jsonResult : Except String JValue

/-- The transport: `requests.post(url, json=payload, ...)`, which either
returns a response or raises. -/
abbrev Transport := String → JValue → Except PyExn HttpResponse

/-- Python `s.endswith(suffix)`, computed on the character list. -/
def strEndsWith (s suffix : String) : Bool :=
  suffix.data.isSuffixOf s.data

/-- Python `s.lower()`, computed on the character list. -/
def pyLower (s : String) : String :=
  ⟨s.data.map Char.toLower⟩

/-- Substring test on character lists (`needle in hay`). -/
def listContains : List Char → List Char → Bool
  | needle, [] => needle.isEmpty
  | needle, c :: rest => needle.isPrefixOf (c :: rest) || listContains needle rest

/-- Python `needle in hay` on strings. -/
def strContains (hay needle : String) : Bool :=
  listContains needle.toList hay.toList

/-- `"application/json" in (r.headers.get("Content-Type") or "").lower()`. -/
def ctypeIsJson (r : HttpResponse) : Bool :=
  strContains (pyLower (r.contentType.getD "")) "application/json"

/-- The body-decoding step of `_try_post`: `r.json()` when the
content-type indicates JSON (wrapping the raw text when that raises),
else the wrapped raw text. -/
def decodeBody (r : HttpResponse) : JValue :=
  if ctypeIsJson r then
    match r.jsonResult with
    | Except.ok d => d
    | Except.error _ => JValue.jobj [("response", JValue.jstr r.text)]
  else JValue.jobj [("response", JValue.jstr r.text)]

/-- `setdefault` lifted to a decoded payload: annotate only dicts. -/
def jsetdefault (data : JValue) (k : String) (v : JValue) : JValue :=
  match data with
  | JValue.jobj fs => JValue.jobj (setdefault fs k v)
  | _ => data

/-- What `_try_post` does with an accepted response: decode the body and
`setdefault` the `_http_status` annotation when the result is a dict. -/
def decodeResponse (r : HttpResponse) : JValue :=
  jsetdefault (decodeBody r) "_http_status" (JValue.jnum r.status_code)

/-- The candidate URL list of `_try_post`: `base + "/a2a"` unless the base
already ends with `/a2a`, then the bare base, `/send`, `/message`,
`/messages`. -/
def candidates (baseUrl : String) : List String :=
  (if !(strEndsWith baseUrl "/a2a") then [baseUrl ++ "/a2a"] else []) ++
    [baseUrl, baseUrl ++ "/send", baseUrl ++ "/message", baseUrl ++ "/messages"]

/-- The `for url in candidates` loop of `_try_post` with its `last_err`
accumulator: the first non-raising attempt is decoded and returned; when
every attempt raises, the last exception is re-raised (and when the list
is empty with no recorded error, `None` is returned). -/
def tryPostLoop (transport : Transport) (payload : JValue) :
    List String → Option PyExn → Except PyExn (Option JValue)
  | [], lastErr =>
    match lastErr with
    | some e => Except.error e
    | none => Except.ok none
  | url :: rest, _lastErr =>
    match transport url payload with
    | Except.ok r => Except.ok (some (decodeResponse r))
    | Except.error e => tryPostLoop transport payload rest (some e)

/-- `A2AClient._try_post(json_payload)` for a client whose stored base URL
is `baseUrl`. -/
def tryPost (transport : Transport) (baseUrl : String) (payload : JValue) :
    Except PyExn (Option JValue) :=
  tryPostLoop transport payload (candidates baseUrl) none

/-- `A2AClient.__init__`: `(base_url or "").rstrip("/")`. -/
def initBaseUrl (base_url : Option String) : String :=
  ⟨((base_url.getD "").data.reverse.dropWhile (fun c => c == '/')).reverse⟩

/-- `Option String` rendered as the JSON value Python would send. -/
def optJStr : Option String → JValue
  | some s => JValue.jstr s
  | none => JValue.jnull

/-- The request payload built by `send_message`. -/
def sendPayload (m : Message) : JValue :=
  JValue.jobj [
    ("role", JValue.jstr m.role),
    ("content", JValue.jobj [("type", JValue.jstr "text"),
      ("text", JValue.jstr m.content.text)]),
    ("conversation_id", optJStr m.conversation_id),
    ("metadata", JValue.jobj (m.metadata.getD [])),
    ("parent_message_id", optJStr m.parent_message_id),
    ("message_id", optJStr m.message_id)]

/-- `A2AClient.send_message`: post the payload through the endpoint
fallback, normalize the reply, and convert every raised exception into a
returned `_A2AResponse` (`requests.Timeout` to the fixed timeout marker,
everything else — including the `AttributeError` the normalizer raises on
a non-dict payload — to `[error] <class>: <message>`). -/
def sendMessage (transport : Transport) (baseUrl : String) (m : Message) :
    A2AResponse :=
  match tryPost transport baseUrl (sendPayload m) with
  | Except.ok (some data) =>
    match extractTextAndConv data m.conversation_id with
    | Except.ok r => r
    | Except.error msg =>
      ⟨⟨"[error] " ++ ("AttributeError: " ++ msg)⟩, Option.map JValue.jstr m.conversation_id⟩
  | Except.ok none =>
    ⟨⟨"[error] " ++ ("AttributeError: " ++ pyAttrMsg "NoneType")⟩,
      Option.map JValue.jstr m.conversation_id⟩
  | Except.error (PyExn.timeout _) =>
    ⟨⟨"[error] request timeout"⟩, Option.map JValue.jstr m.conversation_id⟩
  | Except.error (PyExn.other n msg) =>
    ⟨⟨"[error] " ++ (n ++ (": " ++ msg))⟩, Option.map JValue.jstr m.conversation_id⟩

/-- `isinstance(x, dict)` on a `get` result. -/
def isDict : Option JValue → Bool
  | some (JValue.jobj _) => true
  | _ => false

/-- A concrete outbound message used to exercise the client. -/
def exMessage : Message :=
  { role := "user", content := ⟨"hi"⟩, conversation_id := some "c1" }

/-- A stub transport that times out on every candidate. -/
def tTimeout : Transport := fun _ _ => Except.error (PyExn.timeout "timed out")

/-- A stub transport that raises a connection error on every candidate. -/
def tFail : Transport := fun _ _ => Except.error (PyExn.other "ConnectionError" "boom")

/-- A stub transport that raises on the first candidate of base
`http://h` and then answers 404 with a non-JSON body. -/
def tFailThenOk : Transport := fun url _ =>
  if url = "http://h/a2a" then Except.error (PyExn.other "ConnectionError" "refused")
  else Except.ok ⟨404, none, "nope", Except.error "invalid json"⟩

/-- A stub transport whose response body is the bare JSON string
`"hello"` (content-type JSON, so `r.json()` yields a Python `str`). -/
def tBareString : Transport := fun _ _ =>
  Except.ok ⟨200, some "application/json", "\x22hello\x22", Except.ok (JValue.jstr "hello")⟩

/-! ## Helper lemmas -/

/-- The candidate list when the base does not already end in `/a2a`. -/
lemma candidates_no_suffix (baseUrl : String) (hb : strEndsWith baseUrl "/a2a" = false) :
    candidates baseUrl = [baseUrl ++ "/a2a", baseUrl, baseUrl ++ "/send",
      baseUrl ++ "/message", baseUrl ++ "/messages"] := by
  simp [candidates, hb]

/-- The candidate list when the base already ends in `/a2a`. -/
lemma candidates_with_suffix (baseUrl : String) (hb : strEndsWith baseUrl "/a2a" = true) :
    candidates baseUrl = [baseUrl, baseUrl ++ "/send", baseUrl ++ "/message",
      baseUrl ++ "/messages"] := by
  simp [candidates, hb]

/-- When every candidate raises, `_try_post` re-raises the exception of
the last candidate, which is always `base + "/messages"`. -/
lemma tryPost_all_err (transport : Transport) (payload : JValue) (baseUrl : String)
    (errOf : String → PyExn)
    (h : ∀ u ∈ candidates baseUrl, transport u payload = Except.error (errOf u)) :
    tryPost transport baseUrl payload = Except.error (errOf (baseUrl ++ "/messages")) := by
  unfold tryPost
  by_cases hb : strEndsWith baseUrl "/a2a" = true
  · rw [candidates_with_suffix baseUrl hb] at h ⊢
    have h1 := h baseUrl (by simp)
    have h2 := h (baseUrl ++ "/send") (by simp)
    have h3 := h (baseUrl ++ "/message") (by simp)
    have h4 := h (baseUrl ++ "/messages") (by simp)
    simp only [tryPostLoop, h1, h2, h3, h4]
  · rw [Bool.not_eq_true] at hb
    rw [candidates_no_suffix baseUrl hb] at h ⊢
    have h0 := h (baseUrl ++ "/a2a") (by simp)
    have h1 := h baseUrl (by simp)
    have h2 := h (baseUrl ++ "/send") (by simp)
    have h3 := h (baseUrl ++ "/message") (by simp)
    have h4 := h (baseUrl ++ "/messages") (by simp)
    simp only [tryPostLoop, h0, h1, h2, h3, h4]

/-- Every branch of the normalizer carries the same resolved
conversation id. -/
lemma extractFromDict_conversation (fs : List (String × JValue)) (data : JValue)
    (fb : Option String) :
    (extractFromDict fs data fb).conversation_id = convResolve fs fb := by
  unfold extractFromDict
  cases extractText fs data <;> rfl

/-- Lookup distributes over dict append. -/
lemma dictGet_append (fs gs : List (String × JValue)) (k : String) :
    dictGet (fs ++ gs) k = (dictGet fs k <|> dictGet gs k) := by
  induction fs with
  | nil => simp [dictGet]
  | cons p rest ih =>
    obtain ⟨k2, v2⟩ := p
    by_cases h : k2 = k <;> simp [dictGet, h, ih]

/-- After `setdefault`, the key is always present. -/
lemma dictGet_setdefault_isSome (fs : List (String × JValue)) (k : String) (v : JValue) :
    (dictGet (setdefault fs k v) k).isSome = true := by
  unfold setdefault
  by_cases h : (dictGet fs k).isSome
  · simp [h]
  · rw [Option.not_isSome_iff_eq_none] at h
    simp [h, dictGet_append, dictGet]

/-! ## Claim theorems -/

/-- C1: for every outbound message and every transport behaviour,
`send_message` returns a reply value (it is a total function into
`A2AResponse`, so it never raises past its boundary), and whenever the
endpoint fallback surfaces a transport-level failure the returned reply's
text begins with the `[error] ` marker. -/
theorem send_message_total_and_error_marked (transport : Transport) (baseUrl : String)
    (m : Message) :
    (∃ r : A2AResponse, sendMessage transport baseUrl m = r) ∧
    (∀ e, tryPost transport baseUrl (sendPayload m) = Except.error e →
      ∃ rest, (sendMessage transport baseUrl m).content.text = "[error] " ++ rest) := by
  refine ⟨⟨_, rfl⟩, fun e he => ?_⟩
  unfold sendMessage
  rw [he]
  cases e with
  | timeout msg =>
    refine ⟨"request timeout", ?_⟩
    show ("[error] request timeout" : String) = "[error] " ++ "request timeout"
    decide
  | other n msg => exact ⟨n ++ (": " ++ msg), rfl⟩

/-- C1 witness: a transport that refuses every candidate yields a reply
whose text starts with the error marker. -/
theorem send_message_total_and_error_marked_witness :
    ∃ rest, (sendMessage tFail "http://h" exMessage).content.text = "[error] " ++ rest :=
  (send_message_total_and_error_marked tFail "http://h" exMessage).2
    (PyExn.other "ConnectionError" "boom") rfl

/-- C2: `_try_post` builds the candidate list in the documented order
(`/a2a` omitted when the base already ends with it, then the bare base,
`/send`, `/message`, `/messages`), the first candidate that completes
without a transport exception is final for any response — its HTTP status
is never consulted — and when the first candidate raises while the second
succeeds, the result is the second candidate's decoded response. -/
theorem try_post_candidate_order_first_success (baseUrl : String)
    (transport : Transport) (payload : JValue) :
    (strEndsWith baseUrl "/a2a" = false →
      candidates baseUrl = [baseUrl ++ "/a2a", baseUrl, baseUrl ++ "/send",
        baseUrl ++ "/message", baseUrl ++ "/messages"]) ∧
    (strEndsWith baseUrl "/a2a" = true →
      candidates baseUrl = [baseUrl, baseUrl ++ "/send", baseUrl ++ "/message",
        baseUrl ++ "/messages"]) ∧
    (∀ c₀ c₁ rest, candidates baseUrl = c₀ :: c₁ :: rest →
      (∀ r, transport c₀ payload = Except.ok r →
        tryPost transport baseUrl payload = Except.ok (some (decodeResponse r))) ∧
      (∀ e r, transport c₀ payload = Except.error e → transport c₁ payload = Except.ok r →
        tryPost transport baseUrl payload = Except.ok (some (decodeResponse r)))) := by
  refine ⟨candidates_no_suffix baseUrl, candidates_with_suffix baseUrl,
    fun c₀ c₁ rest hc => ⟨fun r hr => ?_, fun e r he hr => ?_⟩⟩
  · unfold tryPost
    rw [hc]
    simp only [tryPostLoop, hr]
  · unfold tryPost
    rw [hc]
    simp only [tryPostLoop, he, hr]

/-- C2 witness: first candidate refused, second answers 404 with a
non-JSON body — the 404 response is decoded and accepted as final. -/
theorem try_post_candidate_order_first_success_witness :
    tryPost tFailThenOk "http://h" JValue.jnull =
      Except.ok (some (decodeResponse ⟨404, none, "nope", Except.error "invalid json"⟩)) :=
  (((try_post_candidate_order_first_success "http://h" tFailThenOk JValue.jnull).2.2
    "http://h/a2a" "http://h" ["http://h/send", "http://h/message", "http://h/messages"]
    rfl).2) (PyExn.other "ConnectionError" "refused")
    ⟨404, none, "nope", Except.error "invalid json"⟩ rfl rfl

/-- C3: a mapping whose `content` member is a dict with string `text = T`
normalizes to text exactly `T`, and this holds in particular when a
top-level string `response` field is also present (rule 1 applies before
rule 3). -/
theorem extract_content_text_first (fs cfs : List (String × JValue)) (T : String)
    (fb : Option String)
    (h1 : dictGet fs "content" = some (JValue.jobj cfs))
    (h2 : dictGet cfs "text" = some (JValue.jstr T)) :
    (∃ conv, extractTextAndConv (JValue.jobj fs) fb = Except.ok ⟨⟨T⟩, conv⟩) ∧
    (∀ R, dictGet fs "response" = some (JValue.jstr R) →
      ∃ conv, extractTextAndConv (JValue.jobj fs) fb = Except.ok ⟨⟨T⟩, conv⟩) := by
  have hx : extractText fs (JValue.jobj fs) = some T := by
    simp [extractText, tryContent, h1, h2]
  constructor
  · exact ⟨convResolve fs fb, by simp [extractTextAndConv, extractFromDict, hx]⟩
  · exact fun R _ => ⟨convResolve fs fb, by simp [extractTextAndConv, extractFromDict, hx]⟩

/-- C3 witness: `{"content": {"text": "T"}, "response": "R"}` normalizes
to `"T"`. -/
theorem extract_content_text_first_witness :
    ∃ conv, extractTextAndConv
      (JValue.jobj [("content", JValue.jobj [("text", JValue.jstr "T")]),
        ("response", JValue.jstr "R")]) none = Except.ok ⟨⟨"T"⟩, conv⟩ :=
  ((extract_content_text_first
    [("content", JValue.jobj [("text", JValue.jstr "T")]), ("response", JValue.jstr "R")]
    [("text", JValue.jstr "T")] "T" none rfl rfl).2 "R" rfl)

/-- C4 (amended): the conversation id is resolved in priority order with
presence tested by Python truthiness — a truthy top-level
`conversation_id` wins; else a truthy `metadata.conversation_id` (when
`metadata` is a dict); else the outbound message's conversation id. -/
theorem conv_resolution_truthy_priority (fs : List (String × JValue)) (fb : Option String) :
    (∀ v, dictGet fs "conversation_id" = some v → truthy v = true →
      (extractFromDict fs (JValue.jobj fs) fb).conversation_id = some v) ∧
    (optTruthy (dictGet fs "conversation_id") = false →
      ∀ mfs v, dictGet fs "metadata" = some (JValue.jobj mfs) →
        dictGet mfs "conversation_id" = some v → truthy v = true →
        (extractFromDict fs (JValue.jobj fs) fb).conversation_id = some v) ∧
    (optTruthy (dictGet fs "conversation_id") = false →
      ∀ mfs, dictGet fs "metadata" = some (JValue.jobj mfs) →
        optTruthy (dictGet mfs "conversation_id") = false →
        (extractFromDict fs (JValue.jobj fs) fb).conversation_id =
          Option.map JValue.jstr fb) ∧
    (optTruthy (dictGet fs "conversation_id") = false →
      isDict (dictGet fs "metadata") = false →
      (extractFromDict fs (JValue.jobj fs) fb).conversation_id =
        Option.map JValue.jstr fb) := by
  refine ⟨fun v hv htr => ?_, fun hf mfs v hmd hv htr => ?_, fun hf mfs hmd hmf => ?_,
    fun hf hnd => ?_⟩ <;> rw [extractFromDict_conversation] <;> unfold convResolve
  · have h2 : optTruthy (some v) = true := by simp [optTruthy, htr]
    simp [hv, h2]
  · have h2 : optTruthy (some v) = true := by simp [optTruthy, htr]
    simp [hf, hmd, hv, h2]
  · simp [hf, hmd, hmf]
  · cases hdm : dictGet fs "metadata" with
    | none => simp [hf, hdm]
    | some md =>
      cases md <;> simp [hdm, isDict] at hnd ⊢ <;> simp [hf]

/-- C4 witness: outbound id `"c1"`, response `{"conversation_id": "c2"}` —
the normalized reply carries `"c2"`. -/
theorem conv_resolution_truthy_priority_witness :
    (extractFromDict [("conversation_id", JValue.jstr "c2")]
      (JValue.jobj [("conversation_id", JValue.jstr "c2")]) (some "c1")).conversation_id =
      some (JValue.jstr "c2") :=
  (conv_resolution_truthy_priority [("conversation_id", JValue.jstr "c2")] (some "c1")).1
    (JValue.jstr "c2") rfl rfl

/-- C4 counterexample: a top-level `conversation_id` that is present but
falsy (the empty string) is NOT returned — the metadata id `"m1"` wins,
refuting resolution by mere presence. -/
theorem conv_resolution_presence_refuted :
    (extractFromDict
      [("conversation_id", JValue.jstr ""),
       ("metadata", JValue.jobj [("conversation_id", JValue.jstr "m1")])]
      (JValue.jobj
        [("conversation_id", JValue.jstr ""),
         ("metadata", JValue.jobj [("conversation_id", JValue.jstr "m1")])])
      (some "c1")).conversation_id = some (JValue.jstr "m1") ∧
    JValue.jstr "m1" ≠ JValue.jstr "" := by
  refine ⟨rfl, fun h => ?_⟩
  injection h with h'
  exact absurd h' (by decide)

/-- C5: the normalizer does NOT tolerate a bare-string payload.  Its
first statement calls `.get` on the payload, which raises
`AttributeError` for a `str`, so the dedicated bare-string branch
(`ruleString`, which would return the string itself) is unreachable;
`send_message` converts the exception into an `[error] AttributeError`
reply instead of returning `"hello"`. -/
theorem bare_string_payload_raises :
    extractTextAndConv (JValue.jstr "hello") (some "c1") =
      Except.error (pyAttrMsg "str") ∧
    ruleString (JValue.jstr "hello") = some "hello" ∧
    sendMessage tBareString "http://h" exMessage =
      ⟨⟨"[error] " ++ ("AttributeError: " ++ pyAttrMsg "str")⟩,
        some (JValue.jstr "c1")⟩ :=
  ⟨rfl, rfl, rfl⟩

/-- C6: when the transport times out on every candidate attempt,
`send_message` returns the fixed timeout marker with the outbound
conversation id. -/
theorem send_message_timeout_marker (transport : Transport) (baseUrl : String)
    (m : Message) (msgOf : String → String)
    (h : ∀ u ∈ candidates baseUrl, transport u (sendPayload m) =
      Except.error (PyExn.timeout (msgOf u))) :
    sendMessage transport baseUrl m =
      ⟨⟨"[error] request timeout"⟩, Option.map JValue.jstr m.conversation_id⟩ := by
  have ht := tryPost_all_err transport (sendPayload m) baseUrl
    (fun u => PyExn.timeout (msgOf u)) h
  unfold sendMessage
  rw [ht]

/-- C6 witness: an always-timing-out transport yields exactly the timeout
marker and conversation id `"c1"`. -/
theorem send_message_timeout_marker_witness :
    sendMessage tTimeout "http://h" exMessage =
      ⟨⟨"[error] request timeout"⟩, some (JValue.jstr "c1")⟩ :=
  send_message_timeout_marker tTimeout "http://h" exMessage (fun _ => "timed out")
    (fun _ _ => rfl)

/-- C7: when every candidate raises, `_try_post` surfaces the exception
of the last attempted candidate (`base + "/messages"`), and when that
exception is not a timeout, `send_message` embeds its class name and
message in the reply text, preserving the outbound conversation id. -/
theorem last_exception_surfaced (transport : Transport) (baseUrl : String)
    (m : Message) (errOf : String → PyExn)
    (h : ∀ u ∈ candidates baseUrl, transport u (sendPayload m) = Except.error (errOf u)) :
    tryPost transport baseUrl (sendPayload m) = Except.error (errOf (baseUrl ++ "/messages")) ∧
    (∀ n emsg, errOf (baseUrl ++ "/messages") = PyExn.other n emsg →
      sendMessage transport baseUrl m =
        ⟨⟨"[error] " ++ (n ++ (": " ++ emsg))⟩, Option.map JValue.jstr m.conversation_id⟩) := by
  have ht := tryPost_all_err transport (sendPayload m) baseUrl errOf h
  refine ⟨ht, fun n emsg hn => ?_⟩
  unfold sendMessage
  rw [ht, hn]

/-- C7 witness: a transport refusing every candidate with
`ConnectionError: boom` yields the reply `[error] ConnectionError: boom`
with conversation id `"c1"`. -/
theorem last_exception_surfaced_witness :
    sendMessage tFail "http://h" exMessage =
      ⟨⟨"[error] " ++ ("ConnectionError" ++ (": " ++ "boom"))⟩, some (JValue.jstr "c1")⟩ :=
  (last_exception_surfaced tFail "http://h" exMessage
    (fun _ => PyExn.other "ConnectionError" "boom") (fun _ _ => rfl)).2
    "ConnectionError" "boom" rfl

/-- C8 (amended): the body is parsed as JSON when the content-type
indicates JSON and the body parses, otherwise wrapped as
`{"response": raw text}`; the status annotation is a `setdefault` — it is
added only when `_http_status` is not already a key of the decoded
mapping, so any dict handed to the normalizer carries the reserved key,
though not necessarily the response's own status code. -/
theorem response_parsing_setdefault (r : HttpResponse) :
    (ctypeIsJson r = false →
      decodeResponse r = JValue.jobj [("response", JValue.jstr r.text),
        ("_http_status", JValue.jnum r.status_code)]) ∧
    (∀ e, ctypeIsJson r = true → r.jsonResult = Except.error e →
      decodeResponse r = JValue.jobj [("response", JValue.jstr r.text),
        ("_http_status", JValue.jnum r.status_code)]) ∧
    (∀ d, ctypeIsJson r = true → r.jsonResult = Except.ok d →
      decodeResponse r = jsetdefault d "_http_status" (JValue.jnum r.status_code)) ∧
    (∀ fs, decodeResponse r = JValue.jobj fs →
      (dictGet fs "_http_status").isSome = true) := by
  have hwrap : ∀ t s, jsetdefault (JValue.jobj [("response", JValue.jstr t)]) "_http_status"
      (JValue.jnum s) =
      JValue.jobj [("response", JValue.jstr t), ("_http_status", JValue.jnum s)] := by
    intro t s
    simp [jsetdefault, setdefault, dictGet]
  refine ⟨fun hc => ?_, fun e hc hj => ?_, fun d hc hj => ?_, fun fs hfs => ?_⟩
  · unfold decodeResponse decodeBody
    rw [hc]
    simp [hwrap]
  · unfold decodeResponse decodeBody
    rw [hc, hj]
    simp [hwrap]
  · unfold decodeResponse decodeBody
    rw [hc, hj]
    simp
  · unfold decodeResponse decodeBody at hfs
    by_cases hc : ctypeIsJson r = true
    · rw [hc] at hfs
      simp only [if_true] at hfs
      cases hj : r.jsonResult with
      | error e =>
        rw [hj] at hfs
        rw [hwrap] at hfs
        injection hfs with hfs'
        rw [← hfs']
        simp [dictGet]
      | ok d =>
        rw [hj] at hfs
        cases d with
        | jobj gs =>
          simp only [jsetdefault] at hfs
          injection hfs with hfs'
          rw [← hfs']
          exact dictGet_setdefault_isSome gs _ _
        | jstr s => simp [jsetdefault] at hfs
        | jnum n => simp [jsetdefault] at hfs
        | jbool b => simp [jsetdefault] at hfs
        | jnull => simp [jsetdefault] at hfs
        | jarr xs => simp [jsetdefault] at hfs
    · simp only [Bool.not_eq_true] at hc
      rw [hc] at hfs
      simp only [Bool.false_eq_true, if_false] at hfs
      rw [hwrap] at hfs
      injection hfs with hfs'
      rw [← hfs']
      simp [dictGet]

/-- C8 witness: a 404 HTML response is wrapped and annotated with status
404. -/
theorem response_parsing_setdefault_witness :
    decodeResponse ⟨404, some "text/html", "oops", Except.error "nojson"⟩ =
      JValue.jobj [("response", JValue.jstr "oops"), ("_http_status", JValue.jnum 404)] :=
  (response_parsing_setdefault ⟨404, some "text/html", "oops", Except.error "nojson"⟩).1 rfl

/-- C8 counterexample: a JSON body that already contains `_http_status`
keeps its own value (`"spoof"`), so the mapping handed to the normalizer
is not annotated with the response's actual status code 200, refuting the
claim as stated. -/
theorem http_status_annotation_refuted :
    decodeResponse ⟨200, some "application/json", "x",
      Except.ok (JValue.jobj [("_http_status", JValue.jstr "spoof")])⟩ =
      JValue.jobj [("_http_status", JValue.jstr "spoof")] ∧
    JValue.jstr "spoof" ≠ JValue.jnum 200 :=
  ⟨rfl, fun h => JValue.noConfusion h⟩

/-- C9: a mapping with `{"error": "boom"}` and none of the
higher-priority fields (`content`, `response`, `text`, `message`,
`parts`) normalizes — as a returned reply, not a raised failure — to text
`[error] boom`: the error marker prefixed to a text containing
`"boom"`. -/
theorem upstream_error_marked (fs : List (String × JValue)) (fb : Option String)
    (hc : dictGet fs "content" = none) (hr : dictGet fs "response" = none)
    (ht : dictGet fs "text" = none) (hm : dictGet fs "message" = none)
    (hp : dictGet fs "parts" = none)
    (he : dictGet fs "error" = some (JValue.jstr "boom")) :
    ∃ conv, extractTextAndConv (JValue.jobj fs) fb =
      Except.ok ⟨⟨"[error] " ++ "boom"⟩, conv⟩ ∧
      strContains ("[error] " ++ "boom") "boom" = true := by
  have hst : stripTruthy "boom" = true := by decide
  have hx : extractText fs (JValue.jobj fs) = some ("[error] " ++ "boom") := by
    simp [extractText, tryContent, tryTop, tryKeyStr, tryParts, tryErrFields, tryErrKey,
      hc, hr, ht, hm, hp, he, hst]
  exact ⟨convResolve fs fb, by simp [extractTextAndConv, extractFromDict, hx], by decide⟩

/-- C9 witness: `{"error": "boom"}` normalizes to `[error] boom`. -/
theorem upstream_error_marked_witness :
    ∃ conv, extractTextAndConv (JValue.jobj [("error", JValue.jstr "boom")]) (some "c1") =
      Except.ok ⟨⟨"[error] " ++ "boom"⟩, conv⟩ ∧
      strContains ("[error] " ++ "boom") "boom" = true :=
  upstream_error_marked [("error", JValue.jstr "boom")] (some "c1") rfl rfl rfl rfl rfl rfl

/-- C10: a top-level `conversation_id` equal to the empty string is
treated as absent (presence is tested by truthiness), so the resolved id
comes from a truthy `metadata.conversation_id` or, failing that, from the
outbound message — never the empty string from the payload. -/
theorem falsy_top_conv_id_skipped (fs : List (String × JValue)) (fb : Option String)
    (h : dictGet fs "conversation_id" = some (JValue.jstr "")) :
    (extractFromDict fs (JValue.jobj fs) fb).conversation_id =
      (match dictGet fs "metadata" with
       | some (JValue.jobj mfs) =>
         if optTruthy (dictGet mfs "conversation_id") then dictGet mfs "conversation_id"
         else Option.map JValue.jstr fb
       | _ => Option.map JValue.jstr fb) := by
  have he : ("" : String).isEmpty = true := by decide
  rw [extractFromDict_conversation]
  unfold convResolve
  rw [h]
  cases hdm : dictGet fs "metadata" with
  | none => simp [hdm, optTruthy, truthy, he]
  | some md => cases md <;> simp [hdm, optTruthy, truthy, he]

/-- C10 witness: top-level id `""` is skipped in favour of the metadata
id `"m2"`. -/
theorem falsy_top_conv_id_skipped_witness :
    (extractFromDict
      [("conversation_id", JValue.jstr ""),
       ("metadata", JValue.jobj [("conversation_id", JValue.jstr "m2")])]
      (JValue.jobj
        [("conversation_id", JValue.jstr ""),
         ("metadata", JValue.jobj [("conversation_id", JValue.jstr "m2")])])
      (some "c1")).conversation_id = some (JValue.jstr "m2") :=
  falsy_top_conv_id_skipped
    [("conversation_id", JValue.jstr ""),
     ("metadata", JValue.jobj [("conversation_id", JValue.jstr "m2")])] (some "c1") rfl

end A2A
